import Mathlib

/-!
Verification development for the chatroom backend (Egcarson/chatroom).

Shallow embedding of the core the specification describes:
  * Token Service           — `app/core/utils.py` (`create_access_token`,
    `verify_access_token`, `create_token_blacklist`, `get_blacklisted_token`,
    `validate_refresh_token_jti`, `revoke_refresh_token`)
  * Revocation Store        — `app/models.py` (`BlacklistedToken`, `RefreshToken`)
    with the database modelled as a list of rows; `session.commit` enforcing the
    unique column constraints; SQLAlchemy `scalar_one_or_none` returning the
    single row or raising on multiple rows
  * Connection Registry     — `app/core/connection_manager.py`
    (`ConnectionManager.connect/disconnect/broadcast`), the Python
    `Dict[int, List[WebSocket]]` modelled as an association list with unique
    keys in insertion order, websockets modelled by identity as `Nat` ids
  * Chat Session Handler    — `app/routers/ws_chat.py` (`websocket_endpoint`,
    handshake phase), `app/routers/auth.py` (`login`, `get_new_token` token
    construction)

Machine integers are `Int` (unix timestamps in seconds); `datetime.now` is an
explicit `now` parameter; `uuid.uuid4()` values are explicit generator
parameters (`genJti`, `genSid`, ...); `jwt.encode`/`jwt.decode` (PyJWT, HS
symmetric signing) are modelled by a constructor pairing the payload with the
signing key, with `decode` checking the key and the `exp` claim (PyJWT rejects
when `exp <= now`, leeway 0).  Fallible Python code returns explicit result
inductives naming the exception raised.
-/

namespace Chatroom

/-- The `user` claim carried in each token: `{"user_id", "username", "email"}`
as built in `login` (`app/routers/auth.py`). -/
structure UserData where
  user_id : Int
  username : String
  email : String
deriving Repr, DecidableEq

/-- JWT payload dictionary as built by `create_access_token`.  Keys that the
code reads with `.get`/`in`-checks (`user`, `jti`, `session_id`) are `Option`
so that a token minted outside `create_access_token` may lack them. -/
structure Payload where
  user : Option UserData
  exp : Int
  jti : Option String
  refresh : Bool
  session_id : Option String
deriving Repr, DecidableEq

/-- A token string: either a well-formed JWT signed with some key, or a string
that does not decode at all. -/
inductive Jwt where
  | signed (payload : Payload) (key : String)
  | garbage (s : String)
deriving Repr, DecidableEq

/-- Process-wide symmetric signing key, `Config.JWT_SECRET`.  Modelled from
the spec: the config module is not under `src/`; the spec calls it a
process-wide configuration value read once at startup.  Its concrete value is
irrelevant; only equality with it matters. -/
def JWT_SECRET : String := "JWT_SECRET"

/-- Result of `jwt.decode`: success, `ExpiredSignatureError`, or any other
`PyJWTError` (bad signature / not a JWT). -/
inductive JwtResult where
  | ok (p : Payload)
  | expired
  | malformed
deriving Repr, DecidableEq

/-- `jwt.encode(payload, key, algorithm)`. -/
def jwt_encode (payload : Payload) (key : String) : Jwt :=
  .signed payload key

/-- `jwt.decode(token, key, algorithms)`: signature check, then `exp` claim
check (PyJWT raises `ExpiredSignatureError` when `exp <= now`). -/
def jwt_decode (t : Jwt) (key : String) (now : Int) : JwtResult :=
  match t with
  | .garbage _ => .malformed
  | .signed p k =>
    if k ≠ key then .malformed
    else if p.exp ≤ now then .expired
    else .ok p

/-- `ACCESS_TOKEN_EXPIRY = 120` (`app/core/utils.py` line 13). -/
def ACCESS_TOKEN_EXPIRY : Int := 120

/-- `REFRESH_EXPIRY = 3` (`app/routers/auth.py` line 24). -/
def REFRESH_EXPIRY : Int := 3

/-- `timedelta(minutes=m)` in seconds. -/
def minutesToSeconds (m : Int) : Int := 60 * m

/-- `timedelta(days=d)` in seconds. -/
def daysToSeconds (d : Int) : Int := 86400 * d

/-- `create_access_token(user_data, expiry=None, refresh=False, session_id=None,
jti=None)`.  `now` is `datetime.now(timezone.utc)` at call time; `genJti` and
`genSid` are the two `uuid.uuid4()` draws used when `jti` / `session_id` are
omitted.  Default expiry is `timedelta(minutes=ACCESS_TOKEN_EXPIRY)`. -/
def create_access_token (user_data : Option UserData) (now : Int)
    (genJti genSid : String)
    (expiry : Option Int) (refresh : Bool)
    (session_id : Option String) (jti : Option String) : Jwt :=
  let token_expiry : Int :=
    match expiry with
    | some e => e
    | none => minutesToSeconds ACCESS_TOKEN_EXPIRY
  jwt_encode
    { user := user_data
      exp := now + token_expiry
      jti := some (jti.getD genJti)
      refresh := refresh
      session_id := some (session_id.getD genSid) }
    JWT_SECRET

/-- Result of `verify_access_token`: the decoded claims, or the exception
raised (`Exception("Token has expired.")`, `Exception("Invalid token: ...")`,
`KeyError` when the `jti` claim is absent). -/
inductive VerifyResult where
  | ok (p : Payload)
  | expired
  | invalid
  | missingJti
deriving Repr, DecidableEq

/-- `verify_access_token(token)` (`app/core/utils.py` lines 48-67). -/
def verify_access_token (token : Jwt) (now : Int) : VerifyResult :=
  match jwt_decode token JWT_SECRET now with
  | .ok p => if p.jti.isNone then .missingJti else .ok p
  | .expired => .expired
  | .malformed => .invalid

/-- Row of table `refreshtokens` (`app/models.py`).  Columns `jti` and
`session_id` are unique; inserts use fresh UUIDs for both. -/
structure RefreshToken where
  jti : String
  user_id : Int
  session_id : String
  expires_at : Int
  created_at : Int
  revoked : Bool
deriving Repr, DecidableEq

/-- `save_refresh_token`: insert a row with `revoked=False`
(`created_at=datetime.now()`). -/
def save_refresh_token (jti : String) (user_id : Int) (session_id : String)
    (expires_at : Int) (now : Int) (db : List RefreshToken) : List RefreshToken :=
  db ++ [{ jti := jti, user_id := user_id, session_id := session_id,
           expires_at := expires_at, created_at := now, revoked := false }]

/-- Result of `validate_refresh_token_jti`: the matching row, the 403
`HTTPException("Invalid of expired token")`, or SQLAlchemy
`MultipleResultsFound` from `scalar_one_or_none`. -/
inductive ValidateResult where
  | ok (t : RefreshToken)
  | forbidden
  | multipleResults
deriving Repr, DecidableEq

/-- `validate_refresh_token_jti(jti)`: select rows with matching `jti`,
`revoked == False` and `expires_at > datetime.now()`; `scalar_one_or_none`;
raise 403 when no row qualifies. -/
def validate_refresh_token_jti (jti : String) (now : Int)
    (db : List RefreshToken) : ValidateResult :=
  match db.filter (fun t => t.jti == jti && !t.revoked && decide (now < t.expires_at)) with
  | [] => .forbidden
  | [t] => .ok t
  | _ :: _ :: _ => .multipleResults

/-- Result of `revoke_refresh_token`: the updated table, or
`MultipleResultsFound`. -/
inductive RevokeResult where
  | ok (db : List RefreshToken)
  | multipleResults
deriving Repr, DecidableEq

/-- `revoke_refresh_token(session_id)`: look up the row by `session_id`
(`scalar_one_or_none`); when present set `revoked = True` and commit, when
absent do nothing. -/
def revoke_refresh_token (session_id : String)
    (db : List RefreshToken) : RevokeResult :=
  match db.filter (fun t => t.session_id == session_id) with
  | [] => .ok db
  | [_] => .ok (db.map (fun t =>
      if t.session_id == session_id then { t with revoked := true } else t))
  | _ :: _ :: _ => .multipleResults

/-- Row of table `blacklistedtokens` (`app/models.py` lines 65-71).  Columns
`token` and `token_jti` are unique (`token_jti` may be SQL NULL; NULLs do not
collide on a unique column). -/
structure BlacklistedToken where
  token : Jwt
  token_jti : Option String
  expires_at : Int
deriving Repr, DecidableEq

/-- Collision of two `token_jti` column values under the unique constraint:
equal non-NULL strings. -/
def jtiConflict (a b : Option String) : Bool :=
  match a, b with
  | some x, some y => x == y
  | _, _ => false

/-- Result of `create_token_blacklist`: the updated table, the
`ValueError("Invalid token")` raised when the token fails `jwt.decode`, or the
`IntegrityError` the commit raises when a unique column collides. -/
inductive BlacklistResult where
  | ok (db : List BlacklistedToken)
  | valueError
  | integrityError
deriving Repr, DecidableEq

/-- `create_token_blacklist(token)` (`app/core/utils.py` lines 70-88): decode
the token (any failure, including expiry, becomes `ValueError`), build a
`BlacklistedToken(token, token_jti, expires_at)` row and commit it; the commit
fails when an existing row already holds the same `token` or the same non-NULL
`token_jti`. -/
def create_token_blacklist (token : Jwt) (now : Int)
    (db : List BlacklistedToken) : BlacklistResult :=
  match jwt_decode token JWT_SECRET now with
  | .expired => .valueError
  | .malformed => .valueError
  | .ok p =>
    if db.any (fun b => b.token == token || jtiConflict b.token_jti p.jti) then
      .integrityError
    else
      .ok (db ++ [{ token := token, token_jti := p.jti, expires_at := p.exp }])

/-- Result of `get_blacklisted_token` (`scalar_one_or_none`). -/
inductive GetBlacklistedResult where
  | found (b : BlacklistedToken)
  | notFound
  | multipleResults
deriving Repr, DecidableEq

/-- `get_blacklisted_token(token)`: select by raw token string. -/
def get_blacklisted_token (token : Jwt)
    (db : List BlacklistedToken) : GetBlacklistedResult :=
  match db.filter (fun b => b.token == token) with
  | [] => .notFound
  | [b] => .found b
  | _ :: _ :: _ => .multipleResults

/-- `delete_blacklisted_token`: sweep of rows with `expires_at < now`. -/
def delete_blacklisted_token (now : Int)
    (db : List BlacklistedToken) : List BlacklistedToken :=
  db.filter (fun b => !(decide (b.expires_at < now)))

/-- The token pair minted in `login` (`app/routers/auth.py` lines 89-112)
once the password check passed: one `session_id = str(uuid.uuid4())` and one
`jti = str(uuid.uuid4())` drawn, then an access token with default expiry and
a refresh token with `expiry=timedelta(days=REFRESH_EXPIRY)`, `refresh=True`,
both given the same `session_id` and `jti`.  `g1..g4` are the (unused, since
both ids are passed explicitly) fallback uuid draws inside
`create_access_token`. -/
def login_tokens (user : UserData) (now : Int) (session_id jti : String)
    (g1 g2 g3 g4 : String) : Jwt × Jwt :=
  (create_access_token (some user) now g1 g2 none false (some session_id) (some jti),
   create_access_token (some user) now g3 g4 (some (daysToSeconds REFRESH_EXPIRY))
     true (some session_id) (some jti))

/-- Result of `get_new_token`: the fresh access token, a 403 (either from
`validate_refresh_token_jti` or from the expiry re-check), or
`MultipleResultsFound`. -/
inductive NewTokenResult where
  | ok (t : Jwt)
  | forbidden
  | multipleResults
deriving Repr, DecidableEq

/-- `get_new_token` (`app/routers/auth.py` lines 229-249) given the decoded
refresh-token claims `token_details`: read `exp`, `user`, `session_id`, `jti`
from the claims, validate the `jti` against the refresh-token table, re-check
the expiry, and mint a new access token with the same `session_id` and a
freshly drawn `jti` (`genJti`).  A `jti` claim that is absent matches no row
(SQL `= NULL` never holds), so validation raises 403. -/
def get_new_token (token_details : Payload) (now : Int) (genJti genSid : String)
    (db : List RefreshToken) : NewTokenResult :=
  let validated : ValidateResult :=
    match token_details.jti with
    | none => .forbidden
    | some j => validate_refresh_token_jti j now db
  match validated with
  | .forbidden => .forbidden
  | .multipleResults => .multipleResults
  | .ok _ =>
    if now < token_details.exp then
      .ok (create_access_token token_details.user now genJti genSid none false
            token_details.session_id none)
    else
      .forbidden

/-- Payload accessor: the `exp` claim of a signed token (`0` for garbage). -/
def tokenExp (t : Jwt) : Int :=
  match t with
  | .signed p _ => p.exp
  | .garbage _ => 0

/-- Payload accessor: the `jti` claim of a signed token. -/
def tokenJti (t : Jwt) : Option String :=
  match t with
  | .signed p _ => p.jti
  | .garbage _ => none

/-- Payload accessor: the `session_id` claim of a signed token. -/
def tokenSession (t : Jwt) : Option String :=
  match t with
  | .signed p _ => p.session_id
  | .garbage _ => none

/-- Payload accessor: the `user` claim of a signed token. -/
def tokenUser (t : Jwt) : Option UserData :=
  match t with
  | .signed p _ => p.user
  | .garbage _ => none

/-!
Connection Registry (`app/core/connection_manager.py`).

`self.active_connections : Dict[int, List[WebSocket]]` is modelled as an
association list with unique keys in insertion order — exactly a Python dict:
assignment to an existing key updates it in place, assignment to a new key
appends it, `del` removes it.  A `WebSocket` object is identified by a `Nat`
id (Python compares websockets by object identity).  The broadcast payload
dict is opaque to the registry; it is modelled as a `String`.
-/

/-- The registry state: `{ chatroom_id: [WebSocket, ...] }`. -/
abbrev Reg := List (Int × List Nat)

/-- Dict lookup `st[rid]` / `rid in st`. -/
def lookupRoom (st : Reg) (rid : Int) : Option (List Nat) :=
  (st.find? (fun p => p.1 == rid)).map (fun p => p.2)

/-- Dict assignment `st[rid] = l`: update the existing key in place, else
append the new key at the end. -/
def setRoom : Reg → Int → List Nat → Reg
  | [], rid, l => [(rid, l)]
  | p :: st, rid, l => if p.1 == rid then (rid, l) :: st else p :: setRoom st rid l

/-- Dict deletion `del st[rid]`. -/
def delRoom (st : Reg) (rid : Int) : Reg :=
  st.filter (fun p => !(p.1 == rid))

/-- `ConnectionManager.connect(chatroom_id, websocket)`: create the entry with
`[]` when the key is absent, then `append` the websocket. -/
def connect (st : Reg) (rid : Int) (c : Nat) : Reg :=
  match lookupRoom st rid with
  | none => st ++ [(rid, [c])]
  | some l => setRoom st rid (l ++ [c])

/-- Python `list.remove(c)`: delete the first occurrence; `none` models the
`ValueError` raised when `c` is absent (the list is then left unchanged). -/
def removeFirst : List Nat → Nat → Option (List Nat)
  | [], _ => none
  | x :: xs, c => if x == c then some xs else (removeFirst xs c).map (fun r => x :: r)

/-- Outcome of `ConnectionManager.disconnect`: whether a `ValueError` escaped,
and the registry state afterwards (an exception leaves it unchanged). -/
structure DiscOut where
  raised : Bool
  st : Reg
deriving Repr, DecidableEq

/-- `ConnectionManager.disconnect(chatroom_id, websocket)`: no-op when the
room key is absent; otherwise `remove` the websocket from the room's list
(raising `ValueError` when absent) and `del` the key when the list became
empty. -/
def disconnect (st : Reg) (rid : Int) (c : Nat) : DiscOut :=
  match lookupRoom st rid with
  | none => { raised := false, st := st }
  | some l =>
    match removeFirst l c with
    | none => { raised := true, st := st }
    | some l' =>
      if l' = [] then { raised := false, st := delRoom st rid }
      else { raised := false, st := setRoom st rid l' }

/-- `ConnectionManager.broadcast(chatroom_id, message)`: the list of
`connection.send_json(message)` calls performed, in list order; the registry
state itself is not modified. -/
def broadcast (st : Reg) (rid : Int) (m : String) : List (Nat × String) :=
  match lookupRoom st rid with
  | none => []
  | some l => l.map (fun c => (c, m))

/-- Number of deliveries a broadcast made to channel `c`. -/
def sendCount (sends : List (Nat × String)) (c : Nat) : Nat :=
  (sends.filter (fun d => d.1 == c)).length

/-- Registry states reachable from the initial empty dict by the registry's
mutating operations (`broadcast` does not mutate; a `disconnect` that raises
leaves the state unchanged, which `DiscOut.st` already reflects). -/
inductive Reachable : Reg → Prop
  | init : Reachable []
  | step_connect (st : Reg) (rid : Int) (c : Nat) :
      Reachable st → Reachable (connect st rid c)
  | step_disconnect (st : Reg) (rid : Int) (c : Nat) :
      Reachable st → Reachable (disconnect st rid c).st

/-!
Chat Session Handler handshake (`app/routers/ws_chat.py` lines 24-46).

The `Authorization` header string is analysed by the code with
`headers.get`, a falsy check, `startswith("Bearer ")` and `split(" ")[1]`;
it is modelled as `Option AuthHeader`: `none` for a missing (or empty, hence
falsy) header, `notBearer s` for a value failing the `startswith` check, and
`bearerJwt j` for `"Bearer " ++ <token>`.
-/

/-- A present `Authorization` header value. -/
inductive AuthHeader where
  | notBearer (s : String)
  | bearerJwt (j : Jwt)
deriving Repr, DecidableEq

/-- `status.WS_1008_POLICY_VIOLATION`. -/
def WS_1008_POLICY_VIOLATION : Nat := 1008

/-- Outcome of the handshake phase of `websocket_endpoint`: either the socket
was closed with a close code (registry untouched), or the user was extracted
and the socket registered via `manager.connect`. -/
inductive WsOutcome where
  | closed (code : Nat) (st : Reg)
  | connected (user : UserData) (st : Reg)
deriving Repr, DecidableEq

/-- Handshake phase of `websocket_endpoint(websocket, chatroom_id)`: reject
with close code 1008 when the header is missing/falsy, not of bearer form,
fails `jwt.decode` (bad signature, not a JWT, or `exp` in the past), or when
the decoded claims lack a truthy `user`; otherwise register channel `ch` in
room `chatroom_id`. -/
def websocket_handshake (auth : Option AuthHeader) (chatroom_id : Int) (ch : Nat)
    (now : Int) (st : Reg) : WsOutcome :=
  match auth with
  | none => .closed WS_1008_POLICY_VIOLATION st
  | some (.notBearer _) => .closed WS_1008_POLICY_VIOLATION st
  | some (.bearerJwt j) =>
    match jwt_decode j JWT_SECRET now with
    | .expired => .closed WS_1008_POLICY_VIOLATION st
    | .malformed => .closed WS_1008_POLICY_VIOLATION st
    | .ok p =>
      match p.user with
      | none => .closed WS_1008_POLICY_VIOLATION st
      | some u => .connected u (connect st chatroom_id ch)

/-!
Helper lemmas about the registry model.
-/

theorem lookupRoom_nil (rid : Int) : lookupRoom [] rid = none := rfl

theorem lookupRoom_cons (p : Int × List Nat) (st : Reg) (rid : Int) :
    lookupRoom (p :: st) rid =
      if p.1 = rid then some p.2 else lookupRoom st rid := by
  by_cases h : p.1 = rid
  · simp [lookupRoom, List.find?_cons_of_pos, h]
  · simp [lookupRoom, List.find?_cons_of_neg, h]

theorem lookupRoom_setRoom_self (st : Reg) (rid : Int) (l : List Nat) :
    lookupRoom (setRoom st rid l) rid = some l := by
  induction st with
  | nil => simp [setRoom, lookupRoom_cons]
  | cons p st ih =>
    by_cases h : p.1 = rid
    · simp [setRoom, h, lookupRoom_cons]
    · simp [setRoom, h, lookupRoom_cons, ih]

theorem lookupRoom_setRoom_ne (st : Reg) (rid rid' : Int) (l : List Nat)
    (h : rid' ≠ rid) : lookupRoom (setRoom st rid l) rid' = lookupRoom st rid' := by
  induction st with
  | nil => simp [setRoom, lookupRoom_cons, lookupRoom_nil, Ne.symm h]
  | cons p st ih =>
    by_cases hp : p.1 = rid
    · simp [setRoom, hp, lookupRoom_cons, Ne.symm h, hp ▸ (Ne.symm h)]
    · simp only [setRoom, beq_iff_eq, hp, if_false, lookupRoom_cons, ih]

theorem lookupRoom_delRoom_self (st : Reg) (rid : Int) :
    lookupRoom (delRoom st rid) rid = none := by
  induction st with
  | nil => simp [delRoom, lookupRoom_nil]
  | cons p st ih =>
    by_cases h : p.1 = rid
    · simpa [delRoom, h] using ih
    · simpa [delRoom, h, lookupRoom_cons] using ih

theorem delRoom_cons (p : Int × List Nat) (st : Reg) (rid : Int) :
    delRoom (p :: st) rid =
      if p.1 = rid then delRoom st rid else p :: delRoom st rid := by
  by_cases hp : p.1 = rid
  · simp [delRoom, hp]
  · simp [delRoom, hp]

theorem lookupRoom_delRoom_ne (st : Reg) (rid rid' : Int)
    (h : rid' ≠ rid) : lookupRoom (delRoom st rid) rid' = lookupRoom st rid' := by
  induction st with
  | nil => simp [delRoom]
  | cons p st ih =>
    by_cases hp : p.1 = rid
    · have hne : ¬ p.1 = rid' := by rw [hp]; exact Ne.symm h
      rw [delRoom_cons]
      simp [hp, lookupRoom_cons, hne, ih, Ne.symm h]
    · rw [delRoom_cons]
      simp only [hp, if_false]
      rw [lookupRoom_cons, lookupRoom_cons, ih]

theorem lookupRoom_append_new (st : Reg) (rid : Int) (l : List Nat)
    (h : lookupRoom st rid = none) :
    lookupRoom (st ++ [(rid, l)]) rid = some l := by
  induction st with
  | nil => simp [lookupRoom_cons]
  | cons p st ih =>
    by_cases hp : p.1 = rid
    · simp [lookupRoom_cons, hp] at h
    · simp only [lookupRoom_cons, hp, if_false] at h
      simpa [lookupRoom_cons, hp] using ih h

theorem lookupRoom_connect_self (st : Reg) (rid : Int) (c : Nat) :
    lookupRoom (connect st rid c) rid = some ((lookupRoom st rid).getD [] ++ [c]) := by
  cases h : lookupRoom st rid with
  | none => simpa [connect, h] using lookupRoom_append_new st rid [c] h
  | some l => simpa [connect, h] using lookupRoom_setRoom_self st rid (l ++ [c])

theorem removeFirst_eq_none_iff (l : List Nat) (c : Nat) :
    removeFirst l c = none ↔ c ∉ l := by
  induction l with
  | nil => simp [removeFirst]
  | cons x xs ih =>
    by_cases h : x = c
    · simp [removeFirst, h]
    · simp [removeFirst, h, Option.map_eq_none', ih, Ne.symm h]

theorem count_removeFirst (l l' : List Nat) (c : Nat)
    (h : removeFirst l c = some l') : l'.count c + 1 = l.count c := by
  induction l generalizing l' with
  | nil => simp [removeFirst] at h
  | cons x xs ih =>
    by_cases hx : x = c
    · simp only [removeFirst, hx, beq_self_eq_true, if_true, Option.some_inj] at h
      subst h
      simp [hx, List.count_cons]
    · simp only [removeFirst, beq_iff_eq, hx, if_false, Option.map_eq_some'] at h
      obtain ⟨r, hr, hl'⟩ := h
      subst hl'
      have := ih r hr
      simp only [List.count_cons, beq_iff_eq, hx, if_false]
      omega

theorem filter_fst_map_pair_length (l : List Nat) (m : String) (c : Nat) :
    ((l.map (fun x => (x, m))).filter (fun d => d.1 == c)).length = l.count c := by
  induction l with
  | nil => simp
  | cons x xs ih =>
    by_cases hx : x = c
    · simp [hx, List.count_cons, ih]
    · simp [hx, List.count_cons, ih]

theorem sendCount_broadcast (st : Reg) (rid : Int) (m : String) (c : Nat) :
    sendCount (broadcast st rid m) c = ((lookupRoom st rid).getD []).count c := by
  cases h : lookupRoom st rid with
  | none => simp [broadcast, h, sendCount]
  | some l =>
    simpa [broadcast, h, sendCount] using filter_fst_map_pair_length l m c

/-- Every room entry in the registry holds a non-empty channel list. -/
def RoomsNonempty (st : Reg) : Prop := ∀ p ∈ st, p.2 ≠ []

theorem roomsNonempty_setRoom (st : Reg) (rid : Int) (l : List Nat)
    (hst : RoomsNonempty st) (hl : l ≠ []) : RoomsNonempty (setRoom st rid l) := by
  induction st with
  | nil =>
    intro p hp
    simp [setRoom] at hp
    simpa [hp] using hl
  | cons q st ih =>
    intro p hp
    by_cases hq : q.1 = rid
    · simp only [setRoom, beq_iff_eq, hq, if_true, List.mem_cons] at hp
      rcases hp with hp | hp
      · simpa [hp] using hl
      · exact hst p (List.mem_cons_of_mem q hp)
    · simp only [setRoom, beq_iff_eq, hq, if_false, List.mem_cons] at hp
      rcases hp with hp | hp
      · exact hst p (hp ▸ List.mem_cons_self q st)
      · exact ih (fun r hr => hst r (List.mem_cons_of_mem q hr)) p hp

theorem roomsNonempty_delRoom (st : Reg) (rid : Int)
    (hst : RoomsNonempty st) : RoomsNonempty (delRoom st rid) := by
  intro p hp
  exact hst p (List.mem_of_mem_filter hp)

theorem roomsNonempty_connect (st : Reg) (rid : Int) (c : Nat)
    (hst : RoomsNonempty st) : RoomsNonempty (connect st rid c) := by
  cases h : lookupRoom st rid with
  | none =>
    intro p hp
    simp only [connect, h, List.mem_append, List.mem_singleton] at hp
    rcases hp with hp | hp
    · exact hst p hp
    · simp [hp]
  | some l =>
    simpa [connect, h] using roomsNonempty_setRoom st rid (l ++ [c]) hst (by simp)

theorem roomsNonempty_disconnect (st : Reg) (rid : Int) (c : Nat)
    (hst : RoomsNonempty st) : RoomsNonempty (disconnect st rid c).st := by
  cases h : lookupRoom st rid with
  | none => simpa [disconnect, h] using hst
  | some l =>
    cases hr : removeFirst l c with
    | none => simpa [disconnect, h, hr] using hst
    | some l' =>
      by_cases hl' : l' = []
      · simpa [disconnect, h, hr, hl'] using roomsNonempty_delRoom st rid hst
      · simpa [disconnect, h, hr, hl'] using roomsNonempty_setRoom st rid l' hst hl'

theorem reachable_roomsNonempty (st : Reg) (h : Reachable st) :
    RoomsNonempty st := by
  induction h with
  | init => intro p hp; simp at hp
  | step_connect st rid c _ ih => exact roomsNonempty_connect st rid c ih
  | step_disconnect st rid c _ ih => exact roomsNonempty_disconnect st rid c ih

theorem lookupRoom_mem (st : Reg) (rid : Int) (l : List Nat)
    (h : lookupRoom st rid = some l) : (rid, l) ∈ st := by
  simp only [lookupRoom, Option.map_eq_some'] at h
  obtain ⟨p, hp, hl⟩ := h
  have hmem := List.mem_of_find?_eq_some hp
  have hpred := List.find?_some hp
  simp only [beq_iff_eq] at hpred
  have heq : p = (rid, l) := by
    obtain ⟨a, b⟩ := p
    simp only [Prod.mk.injEq]
    exact ⟨hpred, hl⟩
  exact heq ▸ hmem

/-- Among rows with the given `jti`, none qualifies (each is revoked or past
expiry, or no such row exists) — then the refresh validation raises 403. -/
theorem validate_forbidden_of_all_bad (db : List RefreshToken) (j : String) (now : Int)
    (h : ∀ r ∈ db, r.jti = j → r.revoked = true ∨ r.expires_at ≤ now) :
    validate_refresh_token_jti j now db = .forbidden := by
  have hfil :
      db.filter (fun t => t.jti == j && !t.revoked && decide (now < t.expires_at)) = [] := by
    refine List.filter_eq_nil_iff.mpr ?_
    intro r hr hpred
    simp only [Bool.and_eq_true, beq_iff_eq, Bool.not_eq_true', decide_eq_true_eq] at hpred
    obtain ⟨⟨hj, hrev⟩, hexp⟩ := hpred
    rcases h r hr hj with hc | hc
    · rw [hc] at hrev; cases hrev
    · omega
  simp [validate_refresh_token_jti, hfil]

/-- Claim C1 counterexample: a token issued with `isRefresh=false` and no
explicit ttl at issuance time `0` does not carry expiry `0 + 120` seconds
(the code computes `timedelta(minutes=120)`, i.e. `7200` seconds). -/
theorem C1_counterexample :
    tokenExp (create_access_token (some ⟨1, "alice", "alice@example.com"⟩) 0
      "g1" "g2" none false none none) ≠ 0 + 120 := by
  decide

/-- Claim C1 (amended): a token issued with `isRefresh=false` and no explicit
ttl has expiry equal to issuance time plus 7200 seconds — `ACCESS_TOKEN_EXPIRY
= 120` consumed as minutes — and a refresh token issued at login has expiry
equal to issuance time plus 3 days (259200 seconds). -/
theorem C1_default_ttls (u : UserData) (now : Int) (g1 g2 g3 g4 sid jti : String) :
    tokenExp (create_access_token (some u) now g1 g2 none false none none)
      = now + 7200
    ∧ tokenExp (login_tokens u now sid jti g1 g2 g3 g4).2 = now + 259200 := by
  constructor
  · norm_num [create_access_token, jwt_encode, tokenExp, minutesToSeconds,
      ACCESS_TOKEN_EXPIRY]
  · norm_num [login_tokens, create_access_token, jwt_encode, tokenExp,
      daysToSeconds, REFRESH_EXPIRY]

/-- Claim C2: verifying a token before its expiry, right after issuing it,
succeeds and returns claims whose `user` equals the issued subject and whose
`exp` equals issuance time plus the ttl. -/
theorem C2_issue_verify_roundtrip (u : UserData) (ttl now tv : Int)
    (g1 g2 : String) (r : Bool) (sid jti : Option String)
    (h : tv < now + ttl) :
    verify_access_token
      (create_access_token (some u) now g1 g2 (some ttl) r sid jti) tv
      = .ok { user := some u, exp := now + ttl, jti := some (jti.getD g1),
              refresh := r, session_id := some (sid.getD g2) } := by
  simp [verify_access_token, create_access_token, jwt_encode, jwt_decode,
    show ¬(now + ttl ≤ tv) by omega]

/-- Witness for C2 at a concrete subject, ttl 120 s, issuance and verification
both at time 0. -/
theorem C2_witness :
    (0 : Int) < 0 + 120 ∧
    verify_access_token
      (create_access_token (some ⟨1, "alice", "alice@example.com"⟩) 0 "g1" "g2"
        (some 120) false (some "sid1") (some "jti1")) 0
      = .ok { user := some ⟨1, "alice", "alice@example.com"⟩, exp := 0 + 120,
              jti := some "jti1", refresh := false, session_id := some "sid1" } :=
  ⟨by norm_num,
   C2_issue_verify_roundtrip ⟨1, "alice", "alice@example.com"⟩ 120 0 0 "g1" "g2"
     false (some "sid1") (some "jti1") (by norm_num)⟩

/-- Claim C4: the refresh exchange's validation raises 403 whenever the
refresh row for the presented `jti` is missing, revoked, or past expiry
(the check consults only the stored row, never the token's signature or its
self-contained expiry); in particular it raises 403 after the row's
`session_id` has been revoked at logout. -/
theorem C4_refresh_invalid :
    (∀ (db : List RefreshToken) (j : String) (now : Int),
       (∀ r ∈ db, r.jti = j → r.revoked = true ∨ r.expires_at ≤ now) →
       validate_refresh_token_jti j now db = .forbidden)
    ∧
    (∀ (db db' : List RefreshToken) (sid j : String) (now : Int),
       (∀ r ∈ db, r.jti = j → r.session_id = sid) →
       revoke_refresh_token sid db = .ok db' →
       validate_refresh_token_jti j now db' = .forbidden) := by
  constructor
  · exact validate_forbidden_of_all_bad
  · intro db db' sid j now hsid hrev
    apply validate_forbidden_of_all_bad
    intro r hr hj
    unfold revoke_refresh_token at hrev
    split at hrev
    · -- no row matches the session_id: the table is unchanged, and by `hsid`
      -- no row can have jti `j` either
      rename_i hfil
      obtain rfl : db = db' := by injection hrev
      have hnone := List.filter_eq_nil_iff.mp hfil r hr
      simp only [beq_iff_eq] at hnone
      exact absurd (hsid r hr hj) hnone
    · -- exactly one row matches: every row now carrying jti `j` got revoked
      rename_i hfil
      obtain rfl : db.map (fun t =>
          if t.session_id == sid then { t with revoked := true } else t) = db' := by
        injection hrev
      rw [List.mem_map] at hr
      obtain ⟨t, ht, rfl⟩ := hr
      by_cases hts : t.session_id = sid
      · left
        simp [hts]
      · exfalso
        simp only [beq_iff_eq, hts, if_false] at hj
        exact hts (hsid t ht hj)
    · cases hrev

/-- Witness for C4: a lone revoked row, and a fresh row revoked via its
session before validation. -/
theorem C4_witness :
    validate_refresh_token_jti "j1" 50
      [{ jti := "j1", user_id := 1, session_id := "s1", expires_at := 100,
         created_at := 0, revoked := true }] = .forbidden
    ∧ validate_refresh_token_jti "j1" 0
      [{ jti := "j1", user_id := 1, session_id := "s1", expires_at := 1000,
         created_at := 0, revoked := true }] = .forbidden :=
  ⟨C4_refresh_invalid.1
     [{ jti := "j1", user_id := 1, session_id := "s1", expires_at := 100,
        created_at := 0, revoked := true }] "j1" 50 (by decide),
   C4_refresh_invalid.2
     [{ jti := "j1", user_id := 1, session_id := "s1", expires_at := 1000,
        created_at := 0, revoked := false }] _ "s1" "j1" 0 (by decide) (by decide)⟩

/-- Claim C5: the access/refresh pair minted at login shares `session_id` and
`jti`; a successful refresh exchange mints an access token with the presented
`session_id` but the freshly drawn `jti`, hence (uuid freshness) a `jti`
different from the refresh token's. -/
theorem C5_pair_session_jti :
    (∀ (u : UserData) (now : Int) (sid jti g1 g2 g3 g4 : String),
       tokenSession (login_tokens u now sid jti g1 g2 g3 g4).1 = some sid ∧
       tokenSession (login_tokens u now sid jti g1 g2 g3 g4).2 = some sid ∧
       tokenJti (login_tokens u now sid jti g1 g2 g3 g4).1 = some jti ∧
       tokenJti (login_tokens u now sid jti g1 g2 g3 g4).2 = some jti)
    ∧
    (∀ (td : Payload) (now : Int) (genJti genSid : String)
       (db : List RefreshToken) (t : Jwt) (s oldJ : String),
       get_new_token td now genJti genSid db = .ok t →
       td.session_id = some s →
       td.jti = some oldJ →
       genJti ≠ oldJ →
       tokenSession t = some s ∧ tokenJti t = some genJti ∧ tokenJti t ≠ td.jti) := by
  constructor
  · intro u now sid jti g1 g2 g3 g4
    refine ⟨?_, ?_, ?_, ?_⟩ <;>
      simp [login_tokens, create_access_token, jwt_encode, tokenSession, tokenJti]
  · intro td now genJti genSid db t s oldJ hok hsid hjti hfresh
    unfold get_new_token at hok
    simp only [hjti] at hok
    split at hok
    · cases hok
    · cases hok
    · split at hok
      · obtain rfl : create_access_token td.user now genJti genSid none false
            td.session_id none = t := by injection hok
        refine ⟨?_, ?_, ?_⟩
        · simp [create_access_token, jwt_encode, tokenSession, hsid]
        · simp [create_access_token, jwt_encode, tokenJti]
        · simp [create_access_token, jwt_encode, tokenJti, hjti, hfresh]
      · cases hok

/-- Witness for C5's refresh-exchange half at a concrete refresh payload and
table row. -/
theorem C5_witness :
    tokenSession (create_access_token (some ⟨2, "bob", "bob@example.com"⟩) 0
        "jNew" "gS" none false (some "s1") none) = some "s1"
    ∧ tokenJti (create_access_token (some ⟨2, "bob", "bob@example.com"⟩) 0
        "jNew" "gS" none false (some "s1") none) = some "jNew"
    ∧ tokenJti (create_access_token (some ⟨2, "bob", "bob@example.com"⟩) 0
        "jNew" "gS" none false (some "s1") none) ≠ some "jOld" :=
  C5_pair_session_jti.2
    { user := some ⟨2, "bob", "bob@example.com"⟩, exp := 100, jti := some "jOld",
      refresh := true, session_id := some "s1" } 0 "jNew" "gS"
    [{ jti := "jOld", user_id := 2, session_id := "s1", expires_at := 1000,
       created_at := 0, revoked := false }] _ "s1" "jOld"
    (by decide) rfl rfl (by decide)

/-- Each non-NULL `token_jti` value appears on at most one blacklist row
(the unique column constraint). -/
def AtMostOnePerJti (db : List BlacklistedToken) : Prop :=
  db.Pairwise (fun a b => jtiConflict a.token_jti b.token_jti = false)

/-- Claim C6: after a successful `create_token_blacklist(token)`, looking the
raw token up in the blacklist finds it; a second blacklist attempt for any
token carrying the same `jti` hits the unique constraint and creates no second
row; and the at-most-one-row-per-jti invariant is preserved. -/
theorem C6_blacklist_once :
    (∀ (t : Jwt) (now : Int) (db db' : List BlacklistedToken),
       create_token_blacklist t now db = .ok db' →
       ∃ e, get_blacklisted_token t db' = .found e ∧ e.token = t)
    ∧
    (∀ (t t2 : Jwt) (now now2 : Int) (db db' : List BlacklistedToken)
       (p p2 : Payload) (j : String),
       create_token_blacklist t now db = .ok db' →
       jwt_decode t JWT_SECRET now = .ok p →
       jwt_decode t2 JWT_SECRET now2 = .ok p2 →
       p.jti = some j → p2.jti = some j →
       create_token_blacklist t2 now2 db' = .integrityError)
    ∧
    (∀ (t : Jwt) (now : Int) (db db' : List BlacklistedToken),
       AtMostOnePerJti db → create_token_blacklist t now db = .ok db' →
       AtMostOnePerJti db') := by
  refine ⟨?_, ?_, ?_⟩
  · intro t now db db' hok
    unfold create_token_blacklist at hok
    split at hok
    · cases hok
    · cases hok
    · rename_i p hdec
      split at hok
      · cases hok
      · rename_i hany
        obtain rfl : db ++ [{ token := t, token_jti := p.jti, expires_at := p.exp }]
            = db' := by injection hok
        refine ⟨{ token := t, token_jti := p.jti, expires_at := p.exp }, ?_, rfl⟩
        have hfil : db.filter (fun b => b.token == t) = [] := by
          refine List.filter_eq_nil_iff.mpr ?_
          intro b hb hbt
          exact hany (List.any_eq_true.mpr ⟨b, hb, by simp [hbt]⟩)
        simp [get_blacklisted_token, List.filter_append, hfil]
  · intro t t2 now now2 db db' p p2 j hok hdec hdec2 hj hj2
    unfold create_token_blacklist at hok
    split at hok
    · cases hok
    · cases hok
    · rename_i q hdecq
      have hqp : q = p := by
        rw [hdec] at hdecq
        injection hdecq with h
        exact h.symm
      subst hqp
      split at hok
      · cases hok
      · obtain rfl : db ++ [{ token := t, token_jti := q.jti, expires_at := q.exp }]
            = db' := by injection hok
        have hmem : ({ token := t, token_jti := q.jti, expires_at := q.exp } : BlacklistedToken)
            ∈ db ++ [({ token := t, token_jti := q.jti, expires_at := q.exp } : BlacklistedToken)] := by
          simp
        have hany2 : (db ++ [({ token := t, token_jti := q.jti, expires_at := q.exp } : BlacklistedToken)]).any
            (fun b => b.token == t2 || jtiConflict b.token_jti p2.jti) = true :=
          List.any_eq_true.mpr ⟨_, hmem, by simp [jtiConflict, hj, hj2]⟩
        simp [create_token_blacklist, hdec2, hany2]
  · intro t now db db' hinv hok
    unfold create_token_blacklist at hok
    split at hok
    · cases hok
    · cases hok
    · rename_i p hdec
      split at hok
      · cases hok
      · rename_i hany
        obtain rfl : db ++ [{ token := t, token_jti := p.jti, expires_at := p.exp }]
            = db' := by injection hok
        have hnone : ∀ b ∈ db, jtiConflict b.token_jti p.jti = false := by
          intro b hb
          by_contra hbad
          refine hany (List.any_eq_true.mpr ⟨b, hb, ?_⟩)
          simp only [Bool.or_eq_true]
          right
          simpa using hbad
        refine List.pairwise_append.mpr ⟨hinv, by simp [List.pairwise_singleton], ?_⟩
        intro a ha b hb
        simp only [List.mem_singleton] at hb
        subst hb
        exact hnone a ha

/-- Concrete user for witnesses. -/
def aliceUser : UserData := { user_id := 1, username := "alice", email := "alice@example.com" }

/-- Concrete access token (jti "j1", exp 100) for the C6 witness. -/
def c6token1 : Jwt :=
  .signed { user := some aliceUser, exp := 100, jti := some "j1", refresh := false,
            session_id := some "s1" } JWT_SECRET

/-- A different concrete token carrying the same jti "j1" (exp 200). -/
def c6token2 : Jwt :=
  .signed { user := some aliceUser, exp := 200, jti := some "j1", refresh := true,
            session_id := some "s1" } JWT_SECRET

/-- Blacklist row created for `c6token1`. -/
def c6entry : BlacklistedToken :=
  { token := c6token1, token_jti := some "j1", expires_at := 100 }

/-- Witness for C6 at a concrete token (jti "j1") blacklisted into an empty
table, and a second token carrying the same jti. -/
theorem C6_witness :
    (∃ e, get_blacklisted_token c6token1 [c6entry] = .found e ∧ e.token = c6token1)
    ∧ create_token_blacklist c6token2 0 [c6entry] = .integrityError
    ∧ AtMostOnePerJti [c6entry] :=
  ⟨C6_blacklist_once.1 c6token1 0 [] [c6entry] (by decide),
   C6_blacklist_once.2.1 c6token1 c6token2 0 0 [] [c6entry]
     { user := some aliceUser, exp := 100, jti := some "j1", refresh := false,
       session_id := some "s1" }
     { user := some aliceUser, exp := 200, jti := some "j1", refresh := true,
       session_id := some "s1" }
     "j1" (by decide) (by decide) (by decide) rfl rfl,
   C6_blacklist_once.2.2 c6token1 0 [] [c6entry]
     (by simp [AtMostOnePerJti]) (by decide)⟩

/-- Claim C7: a streaming handshake whose credential fails — missing or
malformed bearer header, failed signature/structure check, expired `exp`
(e.g. one second in the past), or claims lacking a subject — closes the
socket with close code 1008 and leaves the registry exactly as it was (the
channel is never registered). -/
theorem C7_handshake_rejects (auth : Option AuthHeader) (rid : Int) (ch : Nat)
    (now : Int) (st : Reg)
    (h : auth = none
      ∨ (∃ s, auth = some (.notBearer s))
      ∨ (∃ j, auth = some (.bearerJwt j) ∧
           (jwt_decode j JWT_SECRET now = .expired ∨
            jwt_decode j JWT_SECRET now = .malformed))
      ∨ (∃ j p, auth = some (.bearerJwt j) ∧ jwt_decode j JWT_SECRET now = .ok p ∧
           p.user = none)) :
    websocket_handshake auth rid ch now st = .closed WS_1008_POLICY_VIOLATION st := by
  rcases h with rfl | ⟨s, rfl⟩ | ⟨j, rfl, hd | hd⟩ | ⟨j, p, rfl, hd, hu⟩
  · rfl
  · rfl
  · simp [websocket_handshake, hd]
  · simp [websocket_handshake, hd]
  · simp [websocket_handshake, hd, hu]

/-- Concrete token whose `exp` (-1) is one second before `now = 0`. -/
def c7expiredToken : Jwt :=
  .signed { user := some aliceUser, exp := -1, jti := some "j1", refresh := false,
            session_id := some "s1" } JWT_SECRET

/-- Witness for C7: a token whose `exp` is one second in the past (exp -1,
now 0) is rejected with close code 1008 and the (empty) registry is left
untouched. -/
theorem C7_witness :
    websocket_handshake (some (.bearerJwt c7expiredToken)) 7 5 0 []
      = .closed WS_1008_POLICY_VIOLATION [] :=
  C7_handshake_rejects (some (.bearerJwt c7expiredToken)) 7 5 0 []
    (Or.inr (Or.inr (Or.inl ⟨c7expiredToken, rfl, Or.inl (by decide)⟩)))

/-- Claim C3 counterexample: in the registry state where channel 5 is already
registered in room 1, `connect(1, 5)` followed by `broadcast(1, m)` delivers
`m` to channel 5 twice, not exactly once (the room's value is a Python list,
so the second registration is kept). -/
theorem C3_counterexample :
    sendCount (broadcast (connect [((1 : Int), [5])] 1 5) 1 "m") 5 = 2
    ∧ sendCount (broadcast (connect [((1 : Int), [5])] 1 5) 1 "m") 5 ≠ 1 := by
  constructor <;> decide

/-- Claim C3 (amended): restricted to registry states in which the channel is
not already registered in the room (at most once for the disconnect part):
`connect(room, c)` then `broadcast(room, m)` delivers `m` to `c` exactly once;
`disconnect(room, c)` then `broadcast(room, m)` never delivers to `c`; and
disconnecting the last channel of a room removes the room's entry, so a later
connect starts from a fresh list. -/
theorem C3_connect_broadcast_disconnect (st : Reg) (rid : Int) (c c' : Nat) (m : String) :
    (((lookupRoom st rid).getD []).count c = 0 →
       sendCount (broadcast (connect st rid c) rid m) c = 1)
    ∧ (((lookupRoom st rid).getD []).count c ≤ 1 →
       sendCount (broadcast (disconnect st rid c).st rid m) c = 0)
    ∧ (lookupRoom st rid = some [c] →
       lookupRoom (disconnect st rid c).st rid = none ∧
       lookupRoom (connect (disconnect st rid c).st rid c') rid = some [c']) := by
  refine ⟨?_, ?_, ?_⟩
  · intro h0
    rw [sendCount_broadcast, lookupRoom_connect_self]
    simp [List.count_append, h0]
  · intro h1
    rw [sendCount_broadcast]
    cases hl : lookupRoom st rid with
    | none => simp [disconnect, hl]
    | some l =>
      rw [hl] at h1
      simp only [Option.getD_some] at h1
      cases hr : removeFirst l c with
      | none =>
        have hnotin := (removeFirst_eq_none_iff l c).mp hr
        simp [disconnect, hl, hr, List.count_eq_zero.mpr hnotin]
      | some l' =>
        have hcount := count_removeFirst l l' c hr
        have hzero : l'.count c = 0 := by omega
        by_cases hnil : l' = []
        · simp [disconnect, hl, hr, hnil, lookupRoom_delRoom_self]
        · simp [disconnect, hl, hr, hnil, lookupRoom_setRoom_self, hzero]
  · intro hl
    have hrem : removeFirst [c] c = some [] := by simp [removeFirst]
    have hdisc : disconnect st rid c = { raised := false, st := delRoom st rid } := by
      simp [disconnect, hl, hrem]
    rw [hdisc]
    refine ⟨lookupRoom_delRoom_self st rid, ?_⟩
    have hnone := lookupRoom_delRoom_self st rid
    simp only [connect, hnone]
    exact lookupRoom_append_new (delRoom st rid) rid [c'] hnone

/-- Witness for C3 (amended): the empty registry for the connect/disconnect
parts, and the one-room state `[(1, [5])]` for the last-channel part. -/
theorem C3_witness :
    sendCount (broadcast (connect [] 1 5) 1 "m") 5 = 1
    ∧ sendCount (broadcast (disconnect [] 1 5).st 1 "m") 5 = 0
    ∧ (lookupRoom (disconnect [((1 : Int), [5])] 1 5).st 1 = none ∧
       lookupRoom (connect (disconnect [((1 : Int), [5])] 1 5).st 1 6) 1 = some [6]) :=
  ⟨(C3_connect_broadcast_disconnect [] 1 5 6 "m").1 (by decide),
   (C3_connect_broadcast_disconnect [] 1 5 6 "m").2.1 (by decide),
   (C3_connect_broadcast_disconnect [((1 : Int), [5])] 1 5 6 "m").2.2 (by decide)⟩

/-- Claim C8: in every registry state reachable by connect/disconnect (and
broadcast, which does not mutate), every room key maps to a non-empty channel
list. -/
theorem C8_no_empty_rooms (st : Reg) (h : Reachable st) (rid : Int)
    (l : List Nat) (hl : lookupRoom st rid = some l) : l ≠ [] := by
  intro hnil
  exact reachable_roomsNonempty st h (rid, l) (lookupRoom_mem st rid l hl) hnil

/-- Witness for C8: the state reached by a single connect maps room 1 to the
non-empty list `[5]`. -/
theorem C8_witness :
    lookupRoom (connect [] 1 5) 1 = some [5] ∧ ([5] : List Nat) ≠ [] :=
  ⟨by decide,
   C8_no_empty_rooms (connect [] 1 5) (Reachable.step_connect [] 1 5 Reachable.init)
     1 [5] (by decide)⟩

/-- Claim C9 counterexample: in the state where room 1 holds only channel 2,
`disconnect(1, 1)` — channel 1 is not registered under room 1 — raises
`ValueError` (`list.remove`), so it is an error for the caller, contrary to
the claim. -/
theorem C9_counterexample :
    (disconnect [((1 : Int), [2])] 1 1).raised = true := by
  decide

/-- Claim C9 (amended): `disconnect(room, c)` when the room has no registry
entry at all is not an error and leaves the registry unchanged; but when the
room exists and `c` is absent from its list, `disconnect` raises `ValueError`
(leaving the registry unchanged); applying disconnect twice equals applying it
once in the case where the first call removed the room's last registration. -/
theorem C9_disconnect_absent (st : Reg) (rid : Int) (c : Nat) :
    (lookupRoom st rid = none → disconnect st rid c = { raised := false, st := st })
    ∧ (∀ l, lookupRoom st rid = some l → c ∉ l →
        disconnect st rid c = { raised := true, st := st })
    ∧ (lookupRoom st rid = some [c] →
        disconnect (disconnect st rid c).st rid c = disconnect st rid c) := by
  refine ⟨?_, ?_, ?_⟩
  · intro h
    simp [disconnect, h]
  · intro l hl hc
    simp [disconnect, hl, (removeFirst_eq_none_iff l c).mpr hc]
  · intro hl
    have hrem : removeFirst [c] c = some [] := by simp [removeFirst]
    have hdisc : disconnect st rid c = { raised := false, st := delRoom st rid } := by
      simp [disconnect, hl, hrem]
    rw [hdisc]
    simp [disconnect, lookupRoom_delRoom_self]

/-- Witness for C9 (amended) at concrete states: the empty registry, a room
holding only channel 2, and a room holding only channel 5. -/
theorem C9_witness :
    disconnect [] 1 5 = { raised := false, st := [] }
    ∧ disconnect [((1 : Int), [2])] 1 5 = { raised := true, st := [((1 : Int), [2])] }
    ∧ disconnect (disconnect [((1 : Int), [5])] 1 5).st 1 5
        = disconnect [((1 : Int), [5])] 1 5 :=
  ⟨(C9_disconnect_absent [] 1 5).1 (by decide),
   (C9_disconnect_absent [((1 : Int), [2])] 1 5).2.1 [2] (by decide) (by decide),
   (C9_disconnect_absent [((1 : Int), [5])] 1 5).2.2 (by decide)⟩

/-- Claim C10: connecting the same channel twice to the same room (starting
from a state where it is not yet registered there) leaves two registrations:
one broadcast delivers the message to that channel twice, and one disconnect
removes only one registration (raising nothing), leaving the channel still
registered once. -/
theorem C10_duplicate_connect (st : Reg) (rid : Int) (c : Nat) (m : String)
    (h : ((lookupRoom st rid).getD []).count c = 0) :
    ((lookupRoom (connect (connect st rid c) rid c) rid).getD []).count c = 2
    ∧ sendCount (broadcast (connect (connect st rid c) rid c) rid m) c = 2
    ∧ (disconnect (connect (connect st rid c) rid c) rid c).raised = false
    ∧ ((lookupRoom (disconnect (connect (connect st rid c) rid c) rid c).st rid).getD
        []).count c = 1 := by
  have hl2 : lookupRoom (connect (connect st rid c) rid c) rid
      = some ((((lookupRoom st rid).getD []) ++ [c]) ++ [c]) := by
    rw [lookupRoom_connect_self, lookupRoom_connect_self]
    simp
  have hcount2 : ((((lookupRoom st rid).getD []) ++ [c]) ++ [c]).count c = 2 := by
    simp [List.count_append, h]
  refine ⟨?_, ?_, ?_, ?_⟩
  · rw [hl2]
    simpa using hcount2
  · rw [sendCount_broadcast, hl2]
    simpa using hcount2
  · cases hr : removeFirst ((((lookupRoom st rid).getD []) ++ [c]) ++ [c]) c with
    | none =>
      exact absurd ((removeFirst_eq_none_iff _ c).mp hr) (by simp)
    | some l' =>
      have hlc := count_removeFirst _ l' c hr
      have hone : l'.count c = 1 := by omega
      have hne : l' ≠ [] := by
        intro hnil
        rw [hnil] at hone
        simp at hone
      simp only [disconnect, hl2, hr]
      rw [if_neg hne]
  · cases hr : removeFirst ((((lookupRoom st rid).getD []) ++ [c]) ++ [c]) c with
    | none =>
      exact absurd ((removeFirst_eq_none_iff _ c).mp hr) (by simp)
    | some l' =>
      have hlc := count_removeFirst _ l' c hr
      have hone : l'.count c = 1 := by omega
      have hne : l' ≠ [] := by
        intro hnil
        rw [hnil] at hone
        simp at hone
      simp only [disconnect, hl2, hr]
      rw [if_neg hne]
      simp only [lookupRoom_setRoom_self, Option.getD_some]
      exact hone

/-- Witness for C10: the empty registry, room 1, channel 5. -/
theorem C10_witness :
    ((lookupRoom (connect (connect [] 1 5) 1 5) 1).getD []).count 5 = 2
    ∧ sendCount (broadcast (connect (connect [] 1 5) 1 5) 1 "m") 5 = 2
    ∧ (disconnect (connect (connect [] 1 5) 1 5) 1 5).raised = false
    ∧ ((lookupRoom (disconnect (connect (connect [] 1 5) 1 5) 1 5).st 1).getD
        []).count 5 = 1 :=
  C10_duplicate_connect [] 1 5 "m" (by decide)

end Chatroom
